import Mathlib

set_option maxHeartbeats 1000000

/-!
Shallow embedding of `src/agent.py` (a small multi-agent orchestration
script) and proofs of the specification's claims about it.

The session state (`tool_context.state`) is a Python dict mapping string
keys to Python values; the only values this program ever stores are
strings and lists of strings, so values are embedded as `PyVal`.
Fallible Python code is embedded in `Except`: a raised exception becomes
`Except.error`.
-/

/-- A Python value stored in the session state: either a string or a
list of strings. -/
inductive PyVal where
  | str (s : String)
  | list (xs : List String)
deriving DecidableEq, Repr

/-- The session state: a mapping from string keys to values; `none`
means the key is unset. -/
def SessionState : Type := String → Option PyVal

/-- The `dict[str, str]` status value returned by both tools. -/
structure ToolResult where
  status : String
deriving DecidableEq, Repr

/-- A Python exception raised by a tool. -/
inductive PyError where
  | typeError
  | fileNotFoundError
  | permissionError
deriving DecidableEq, Repr

/-- Embedding of `append_to_state` (src/agent.py lines 29-36):
reads `tool_context.state.get(field, [])`, concatenates `[response]`
onto it and writes the result back, returning `{"status": "success"}`.
Python raises `TypeError` if the existing value is a string (a string
cannot be concatenated with a list). -/
def append_to_state (st : SessionState) (field response : String) :
    Except PyError (SessionState × ToolResult) :=
  match (st field).getD (PyVal.list []) with
  | PyVal.list xs =>
      Except.ok
        (fun k => if k = field then some (PyVal.list (xs ++ [response])) else st k,
         ⟨"success"⟩)
  | PyVal.str _ => Except.error PyError.typeError

/-- The everywhere-unset session state (a fresh session). -/
def emptySession : SessionState := fun _ => none

/-- C1: appending to an unset field initializes a one-element sequence
holding exactly the response. -/
theorem append_unset_initializes (st : SessionState) (f r : String)
    (h : st f = none) :
    ∃ st', append_to_state st f r = Except.ok (st', ⟨"success"⟩) ∧
      st' f = some (PyVal.list [r]) := by
  unfold append_to_state
  rw [h]
  exact ⟨_, rfl, by simp⟩

/-- Witness for C1 at a concrete input: a fresh session and field
`pos_data`. -/
theorem append_unset_initializes_witness :
    emptySession "pos_data" = none ∧
      ∃ st', append_to_state emptySession "pos_data" "fact" =
          Except.ok (st', ⟨"success"⟩) ∧
        st' "pos_data" = some (PyVal.list ["fact"]) :=
  ⟨rfl, append_unset_initializes emptySession "pos_data" "fact" rfl⟩

/-- C2: appending to a field already bound to a sequence `xs` produces
`xs ++ [r]`: every prior element is preserved in order and multiplicity
and the new element sits at the end; no uniqueness or size constraint
is enforced (any `xs`, including one already containing `r`, is
accepted). -/
theorem append_existing_appends (st : SessionState) (f r : String)
    (xs : List String) (h : st f = some (PyVal.list xs)) :
    ∃ st', append_to_state st f r = Except.ok (st', ⟨"success"⟩) ∧
      st' f = some (PyVal.list (xs ++ [r])) := by
  unfold append_to_state
  rw [h]
  exact ⟨_, rfl, by simp⟩

/-- Witness for C2 at a concrete input: a state whose `neg_data` field
already holds `["a", "b"]` (with a duplicate of the appended element,
showing no uniqueness constraint). -/
theorem append_existing_appends_witness :
    (fun k => if k = "neg_data" then some (PyVal.list ["a", "b"]) else none :
        SessionState) "neg_data" = some (PyVal.list ["a", "b"]) ∧
      ∃ st', append_to_state
          (fun k => if k = "neg_data" then some (PyVal.list ["a", "b"]) else none)
          "neg_data" "a" = Except.ok (st', ⟨"success"⟩) ∧
        st' "neg_data" = some (PyVal.list ["a", "b", "a"]) :=
  ⟨rfl, append_existing_appends _ "neg_data" "a" ["a", "b"] rfl⟩

/-- C9 (frame property): a successful `append_to_state` call changes
the state at the named field alone: every other key keeps its prior
value, and the named field's value does change. -/
theorem append_frame (st st' : SessionState) (f r : String)
    (res : ToolResult)
    (h : append_to_state st f r = Except.ok (st', res)) :
    (∀ k, k ≠ f → st' k = st k) ∧ st' f ≠ st f := by
  unfold append_to_state at h
  rcases hf : (st f).getD (PyVal.list []) with s | xs
  · rw [hf] at h
    exact absurd h (by simp)
  · rw [hf] at h
    have hst : (fun k =>
        if k = f then some (PyVal.list (xs ++ [r])) else st k) = st' :=
      congrArg Prod.fst (Except.ok.inj h)
    have hsf' : st' f = some (PyVal.list (xs ++ [r])) := by
      rw [← hst]
      simp
    constructor
    · intro k hk
      rw [← hst]
      simp [hk]
    · rw [hsf']
      rcases hsf : st f with _ | v
      · simp
      · rcases v with s | ys
        · rw [hsf] at hf
          simp at hf
        · rw [hsf] at hf
          simp at hf
          subst hf
          simp only [ne_eq, Option.some.injEq, PyVal.list.injEq]
          intro hcon
          have := congrArg List.length hcon
          simp at this

/-- Witness for C9 at a concrete input: appending to `pos_data` leaves
`PROMPT` untouched. -/
theorem append_frame_witness :
    ∃ st' res, append_to_state
        (fun k => if k = "PROMPT" then some (PyVal.str "topic") else none)
        "pos_data" "fact" = Except.ok (st', res) ∧
      ((∀ k, k ≠ "pos_data" → st' k =
          (fun k => if k = "PROMPT" then some (PyVal.str "topic") else none :
            SessionState) k) ∧
        st' "pos_data" ≠
          (fun k => if k = "PROMPT" then some (PyVal.str "topic") else none :
            SessionState) "pos_data") := by
  refine ⟨_, _, rfl, ?_⟩
  exact append_frame _ _ "pos_data" "fact" _ rfl

/-- Does an optional state value hold a Python string? -/
def isStrVal : Option PyVal → Bool
  | some (PyVal.str _) => true
  | _ => false

/-- C5 counterexample: the greeter stores the user's topic in `PROMPT`
with the `append_to_state` tool (src/agent.py line 162), so after that
store on a fresh session `PROMPT` holds the one-element list
`["Napoleon"]`, not a string: the claimed string-typing of `PROMPT` is
violated by the very step the claim cites. -/
theorem prompt_stored_as_list :
    (append_to_state emptySession "PROMPT" "Napoleon").map
        (fun p => p.1 "PROMPT") =
      Except.ok (some (PyVal.list ["Napoleon"])) ∧
    isStrVal (some (PyVal.list ["Napoleon"])) = false :=
  ⟨rfl, rfl⟩

/-- The amended typing invariant: every bound state key holds a list of
strings (an ordered append-only sequence); `PROMPT` is no exception. -/
def ListTyped (st : SessionState) : Prop :=
  ∀ k v, st k = some v → ∃ xs, v = PyVal.list xs

/-- C5 amended: every key written by `append_to_state` — `PROMPT`,
`pos_data` and `neg_data` alike — holds an ordered sequence of strings,
and this list-typing of the state is an invariant preserved by
`append_to_state`, the only state-mutating code in the repository
(the greeter's store of the user's response included). -/
theorem append_preserves_list_typing (st st' : SessionState)
    (f r : String) (res : ToolResult) (hT : ListTyped st)
    (h : append_to_state st f r = Except.ok (st', res)) :
    ListTyped st' := by
  unfold append_to_state at h
  rcases hf : (st f).getD (PyVal.list []) with s | xs
  · rw [hf] at h
    exact absurd h (by simp)
  · rw [hf] at h
    have hst : (fun k =>
        if k = f then some (PyVal.list (xs ++ [r])) else st k) = st' :=
      congrArg Prod.fst (Except.ok.inj h)
    intro k v hk
    rw [← hst] at hk
    have hk' : (if k = f then some (PyVal.list (xs ++ [r])) else st k) =
        some v := hk
    by_cases hkf : k = f
    · rw [if_pos hkf] at hk'
      exact ⟨_, (Option.some.inj hk').symm⟩
    · rw [if_neg hkf] at hk'
      exact hT k v hk'

/-- Witness for the amended C5 at a concrete input: the greeter's store
of the topic into `PROMPT` on a fresh (trivially list-typed) session
keeps the state list-typed. -/
theorem append_preserves_list_typing_witness :
    ∃ st' res, append_to_state emptySession "PROMPT" "Napoleon" =
        Except.ok (st', res) ∧ ListTyped st' := by
  refine ⟨_, _, rfl, ?_⟩
  exact append_preserves_list_typing emptySession _ "PROMPT" "Napoleon" _
    (fun k v hk => by simp [emptySession] at hk) rfl

/-! ### The filesystem model and `write_file`

`write_file` (src/agent.py lines 39-51) calls `os.path.join`,
`os.makedirs(..., exist_ok=True)` on the joined path's `os.path.dirname`,
and then opens the target for writing.  The POSIX path functions are
embedded below following their CPython (`posixpath`) semantics with
separator `/`.  The filesystem is a record of existing directories and
file contents, together with two environment-supplied error predicates
(`mkdirErr`, `openErr`) that model OS-raised failures such as permission
errors on a given path — these are inputs of the model, not behaviour of
the repository's code. -/

/-- Boolean string-prefix test (Python `str.startswith`). -/
def strStartsWith (s pre : String) : Bool :=
  pre.data.isPrefixOf s.data

/-- Boolean string-suffix test (Python `str.endswith`). -/
def strEndsWith (s suf : String) : Bool :=
  suf.data.reverse.isPrefixOf s.data.reverse

/-- Embedding of `posixpath.join` for two components: if `b` is
absolute it wins; otherwise it is glued to `a` with a `/` inserted
unless `a` is empty or already ends in `/`. -/
def os_path_join (a b : String) : String :=
  if strStartsWith b "/" = true then b
  else if a = "" ∨ strEndsWith a "/" = true then a ++ b
  else a ++ "/" ++ b

/-- Embedding of `posixpath.dirname`: the prefix up to and including
the last `/` (empty if there is none), with trailing slashes stripped
unless the prefix consists only of slashes. -/
def os_path_dirname (p : String) : String :=
  let head := (p.data.reverse.dropWhile (fun c => !(c == '/'))).reverse
  if head.all (fun c => c == '/') then String.mk head
  else String.mk ((head.reverse.dropWhile (fun c => c == '/')).reverse)

/-- The chain of directories `os.makedirs` creates for a path: the path
itself and its successive dirnames, down to the empty string (fuelled
by the path length, which bounds the chain). -/
def ancestorChain : Nat → String → List String
  | 0, _ => []
  | fuel + 1, p =>
      if p = "" then [] else p :: ancestorChain fuel (os_path_dirname p)

/-- A filesystem: which directories exist, which files hold which
content, and which paths the OS refuses (modelling permission or
invalid-path failures raised by the environment). -/
structure FS where
  dirs : String → Bool
  files : String → Option String
  mkdirErr : String → Bool
  openErr : String → Bool

/-- Embedding of `os.makedirs(name, exist_ok=True)`: raises
`FileNotFoundError` on the empty path (CPython behaviour), raises if
the environment refuses the path, and otherwise records `name` and all
its ancestor directories as existing. -/
def os_makedirs (fs : FS) (name : String) : Except PyError FS :=
  if name = "" then Except.error PyError.fileNotFoundError
  else if fs.mkdirErr name = true then Except.error PyError.permissionError
  else Except.ok { fs with dirs := fun q => fs.dirs q || decide (q ∈ ancestorChain (name.length + 1) name) }

/-- Embedding of `open(path, "w")` followed by `f.write(content)`:
raises if the environment refuses the path, raises if the parent
directory is named but absent, and otherwise stores `content` at
`path`, replacing any previous content. -/
def fs_open_write (fs : FS) (path content : String) : Except PyError FS :=
  if fs.openErr path = true then Except.error PyError.permissionError
  else if os_path_dirname path = "" ∨ fs.dirs (os_path_dirname path) = true then
    Except.ok { fs with files := fun q => if q = path then some content else fs.files q }
  else Except.error PyError.fileNotFoundError

/-- Embedding of `write_file` (src/agent.py lines 39-51): joins
`directory` and `filename`, ensures the dirname of the joined path
exists via `os.makedirs(..., exist_ok=True)`, writes `content` to the
path, and returns `{"status": "success"}`; any error from the two
filesystem calls propagates uncaught. -/
def write_file (fs : FS) (directory filename content : String) :
    Except PyError (FS × ToolResult) :=
  let target_path := os_path_join directory filename
  match os_makedirs fs (os_path_dirname target_path) with
  | Except.error e => Except.error e
  | Except.ok fs1 =>
      match fs_open_write fs1 target_path content with
      | Except.error e => Except.error e
      | Except.ok fs2 => Except.ok (fs2, ⟨"success"⟩)

/-- The pristine filesystem: no directories, no files, and an
environment that refuses nothing. -/
def fs0 : FS :=
  ⟨fun _ => false, fun _ => none, fun _ => false, fun _ => false⟩

/-- If `os.makedirs` raises, `write_file` re-raises the same error. -/
lemma write_file_mk_err (fs : FS) (d fn c : String) (e : PyError)
    (h : os_makedirs fs (os_path_dirname (os_path_join d fn)) = Except.error e) :
    write_file fs d fn c = Except.error e := by
  simp only [write_file]
  rw [h]

/-- If the write itself raises after directory creation succeeded,
`write_file` re-raises the same error. -/
lemma write_file_open_err (fs fsA : FS) (d fn c : String) (e : PyError)
    (h1 : os_makedirs fs (os_path_dirname (os_path_join d fn)) = Except.ok fsA)
    (h2 : fs_open_write fsA (os_path_join d fn) c = Except.error e) :
    write_file fs d fn c = Except.error e := by
  simp only [write_file]
  rw [h1]
  show (match fs_open_write fsA (os_path_join d fn) c with
    | Except.error e => Except.error e
    | Except.ok fs2 => Except.ok (fs2, (⟨"success"⟩ : ToolResult))) = Except.error e
  rw [h2]

/-- When both filesystem calls succeed, `write_file` returns the final
filesystem with the success status. -/
lemma write_file_ok_of (fs fsA fsB : FS) (d fn c : String)
    (h1 : os_makedirs fs (os_path_dirname (os_path_join d fn)) = Except.ok fsA)
    (h2 : fs_open_write fsA (os_path_join d fn) c = Except.ok fsB) :
    write_file fs d fn c = Except.ok (fsB, ⟨"success"⟩) := by
  simp only [write_file]
  rw [h1]
  show (match fs_open_write fsA (os_path_join d fn) c with
    | Except.error e => Except.error e
    | Except.ok fs2 => Except.ok (fs2, (⟨"success"⟩ : ToolResult))) = Except.ok (fsB, ⟨"success"⟩)
  rw [h2]

/-- A successful open-and-write stores the content at the path. -/
lemma fs_open_write_ok_files (fs fs' : FS) (path content : String)
    (h : fs_open_write fs path content = Except.ok fs') :
    fs'.files path = some content := by
  unfold fs_open_write at h
  split at h
  · exact absurd h (by simp)
  · split at h
    · rw [← Except.ok.inj h]
      simp
    · exact absurd h (by simp)

/-- Joining onto the empty directory returns the filename unchanged. -/
lemma join_empty_left (fn : String) : os_path_join "" fn = fn := by
  obtain ⟨l⟩ := fn
  unfold os_path_join
  split
  · rfl
  · rw [if_pos (Or.inl rfl)]
    rfl

/-- A path without a separator has the empty dirname. -/
lemma dirname_no_slash (fn : String) (h : '/' ∉ fn.data) :
    os_path_dirname fn = "" := by
  unfold os_path_dirname
  have hd : fn.data.reverse.dropWhile (fun c => !(c == '/')) = [] := by
    rw [List.dropWhile_eq_nil_iff]
    intro x hx
    rw [List.mem_reverse] at hx
    simp only [Bool.not_eq_true', beq_eq_false_iff_ne]
    exact fun hh => h (hh ▸ hx)
  simp [hd]

/-- A nonempty path heads its own `makedirs` creation chain. -/
lemma self_mem_ancestorChain (p : String) (hp : p ≠ "") :
    p ∈ ancestorChain (p.length + 1) p := by
  simp only [ancestorChain]
  rw [if_neg hp]
  exact List.mem_cons_self _ _

/-- C3 counterexample: the claim quantifies over every directory
string, but at the concrete input `directory = ""`,
`filename = "report.txt"` the dirname of the joined path is empty and
`os.makedirs("")` raises, so `write_file` raises instead of writing —
the claim is false as stated. -/
theorem write_file_empty_dirname_fails :
    write_file fs0 "" "report.txt" "verdict" =
      Except.error PyError.fileNotFoundError := rfl

/-- C3 amended: whenever the dirname of the joined target path is
nonempty and the environment raises no error on that dirname or on the
target, `write_file` succeeds — even on a filesystem where the
directory does not yet exist — creating the parent directory and its
whole ancestor chain and storing the content at the target path. -/
theorem write_file_creates_dirs_and_writes (fs : FS) (d fn c : String)
    (hdir : os_path_dirname (os_path_join d fn) ≠ "")
    (hmk : fs.mkdirErr (os_path_dirname (os_path_join d fn)) = false)
    (hop : fs.openErr (os_path_join d fn) = false) :
    ∃ fs', write_file fs d fn c = Except.ok (fs', ⟨"success"⟩) ∧
      fs'.files (os_path_join d fn) = some c ∧
      fs'.dirs (os_path_dirname (os_path_join d fn)) = true ∧
      ∀ p ∈ ancestorChain ((os_path_dirname (os_path_join d fn)).length + 1)
          (os_path_dirname (os_path_join d fn)), fs'.dirs p = true := by
  set target := os_path_join d fn with htarget
  set name := os_path_dirname target with hname
  set FS1 : FS := { fs with dirs := fun q => fs.dirs q || decide (q ∈ ancestorChain (name.length + 1) name) } with hFS1
  have hmk1 : os_makedirs fs name = Except.ok FS1 := by
    unfold os_makedirs
    rw [if_neg hdir, hmk]
    simp [hFS1]
  have hdirsFS1 : ∀ p ∈ ancestorChain (name.length + 1) name, FS1.dirs p = true := by
    intro p hp
    rw [hFS1]
    simp [hp]
  have hnm : name ∈ ancestorChain (name.length + 1) name :=
    self_mem_ancestorChain name hdir
  set FS2 : FS := { FS1 with files := fun q => if q = target then some c else FS1.files q } with hFS2
  have hop1 : fs_open_write FS1 target c = Except.ok FS2 := by
    unfold fs_open_write
    have h1 : FS1.openErr target = false := by rw [hFS1]; exact hop
    rw [h1]
    simp only [Bool.false_eq_true, if_false]
    rw [← hname, if_pos (Or.inr (hdirsFS1 name hnm))]
  refine ⟨FS2, write_file_ok_of fs FS1 FS2 d fn c hmk1 hop1, ?_, ?_, ?_⟩
  · rw [hFS2]
    simp
  · rw [hFS2]
    simp only
    exact hdirsFS1 name hnm
  · intro p hp
    rw [hFS2]
    simp only
    exact hdirsFS1 p hp

/-- Witness for the amended C3 at a concrete input: on the pristine
filesystem — where the directory `verdicts` does not yet exist — the
write succeeds, creates it, and stores the content. -/
theorem write_file_creates_dirs_witness :
    os_path_dirname (os_path_join "verdicts" "report.txt") ≠ "" ∧
      ∃ fs', write_file fs0 "verdicts" "report.txt" "verdict" =
          Except.ok (fs', ⟨"success"⟩) ∧
        fs'.files (os_path_join "verdicts" "report.txt") = some "verdict" ∧
        fs'.dirs (os_path_dirname (os_path_join "verdicts" "report.txt")) = true ∧
        ∀ p ∈ ancestorChain
            ((os_path_dirname (os_path_join "verdicts" "report.txt")).length + 1)
            (os_path_dirname (os_path_join "verdicts" "report.txt")),
          fs'.dirs p = true :=
  ⟨by decide,
    write_file_creates_dirs_and_writes fs0 "verdicts" "report.txt" "verdict"
      (by decide) rfl rfl⟩

/-- C4: writing twice to the same directory and filename leaves the
target file holding exactly the second content — the second write
overwrites rather than appends. -/
theorem write_file_overwrites (fs fsA fsB : FS) (d fn c1 c2 : String)
    (r1 r2 : ToolResult)
    (h1 : write_file fs d fn c1 = Except.ok (fsA, r1))
    (h2 : write_file fsA d fn c2 = Except.ok (fsB, r2)) :
    fsB.files (os_path_join d fn) = some c2 := by
  simp only [write_file] at h2
  rcases hmk : os_makedirs fsA (os_path_dirname (os_path_join d fn)) with e | fs1
  · rw [hmk] at h2
    exact absurd h2 (by simp)
  · rw [hmk] at h2
    have h2' : (match fs_open_write fs1 (os_path_join d fn) c2 with
        | Except.error e => Except.error e
        | Except.ok fs2 => Except.ok (fs2, (⟨"success"⟩ : ToolResult))) =
        Except.ok (fsB, r2) := h2
    rcases hw : fs_open_write fs1 (os_path_join d fn) c2 with e | fs2
    · rw [hw] at h2'
      exact absurd h2' (by simp)
    · rw [hw] at h2'
      have hfsB : fs2 = fsB := congrArg Prod.fst (Except.ok.inj h2')
      rw [← hfsB]
      exact fs_open_write_ok_files fs1 fs2 _ c2 hw

/-- Witness for C4 at a concrete input: two successive writes to
`verdicts/report.txt` leave the second content in the file. -/
theorem write_file_overwrites_witness :
    ∃ fsA fsB, write_file fs0 "verdicts" "report.txt" "first" =
        Except.ok (fsA, ⟨"success"⟩) ∧
      write_file fsA "verdicts" "report.txt" "second" =
        Except.ok (fsB, ⟨"success"⟩) ∧
      fsB.files (os_path_join "verdicts" "report.txt") = some "second" := by
  refine ⟨_, _, rfl, rfl, ?_⟩
  exact write_file_overwrites fs0 _ _ "verdicts" "report.txt" "first" "second"
    _ _ rfl rfl

/-- C8: `write_file` has no error handling of its own — whenever the
directory creation or the file write raises, the same error propagates
to the caller and no success status is returned. -/
theorem write_file_propagates_errors (fs : FS) (d fn c : String) (e : PyError)
    (h : os_makedirs fs (os_path_dirname (os_path_join d fn)) = Except.error e ∨
      ∃ fsA, os_makedirs fs (os_path_dirname (os_path_join d fn)) = Except.ok fsA ∧
        fs_open_write fsA (os_path_join d fn) c = Except.error e) :
    write_file fs d fn c = Except.error e ∧
      ∀ fs' r, write_file fs d fn c ≠ Except.ok (fs', r) := by
  have hmain : write_file fs d fn c = Except.error e := by
    rcases h with h1 | ⟨fsA, h1, h2⟩
    · exact write_file_mk_err fs d fn c e h1
    · exact write_file_open_err fs fsA d fn c e h1 h2
  exact ⟨hmain, fun fs' r hc => by rw [hmain] at hc; exact absurd hc (by simp)⟩

/-- Witness for C8 at a concrete input: `os.makedirs` raises on the
empty dirname and `write_file` propagates exactly that error. -/
theorem write_file_propagates_errors_witness :
    (os_makedirs fs0 (os_path_dirname (os_path_join "" "a.txt")) =
        Except.error PyError.fileNotFoundError ∨
      ∃ fsA, os_makedirs fs0 (os_path_dirname (os_path_join "" "a.txt")) = Except.ok fsA ∧
        fs_open_write fsA (os_path_join "" "a.txt") "x" =
          Except.error PyError.fileNotFoundError) ∧
      write_file fs0 "" "a.txt" "x" = Except.error PyError.fileNotFoundError :=
  ⟨Or.inl rfl,
    (write_file_propagates_errors fs0 "" "a.txt" "x" PyError.fileNotFoundError
      (Or.inl rfl)).1⟩

/-- C10: with an empty directory argument and a separator-free
filename, the joined path's dirname is empty, `os.makedirs("")`
raises, and `write_file` raises without ever returning success — it
does not fall back to writing into the current working directory. -/
theorem write_file_empty_directory_raises (fs : FS) (fn c : String)
    (h : '/' ∉ fn.data) :
    write_file fs "" fn c = Except.error PyError.fileNotFoundError ∧
      ∀ fs' r, write_file fs "" fn c ≠ Except.ok (fs', r) := by
  have hj : os_path_join "" fn = fn := join_empty_left fn
  have hd : os_path_dirname (os_path_join "" fn) = "" := by
    rw [hj]
    exact dirname_no_slash fn h
  have hmain : write_file fs "" fn c = Except.error PyError.fileNotFoundError := by
    apply write_file_mk_err
    rw [hd]
    rfl
  exact ⟨hmain, fun fs' r hc => by rw [hmain] at hc; exact absurd hc (by simp)⟩

/-- Witness for C10 at a concrete input: `write_file(fs, "", "a.txt", "x")`
raises `FileNotFoundError`. -/
theorem write_file_empty_directory_raises_witness :
    '/' ∉ "a.txt".data ∧
      write_file fs0 "" "a.txt" "x" = Except.error PyError.fileNotFoundError :=
  ⟨by decide,
    (write_file_empty_directory_raises fs0 "a.txt" "x" (by decide)).1⟩

/-! ### Agent configuration

The five model-backed agents (src/agent.py lines 56-171) are static
descriptors.  Each is constructed with
`Gemini(model=model_name, retry_options=RETRY_OPTIONS)` where
`model_name = os.getenv("MODEL")`; the environment is a parameter of
the embedding.  Tools and sub-agents are recorded by name. -/

/-- Embedding of `google.genai.types.HttpRetryOptions` as configured
here: an initial delay and a bounded number of attempts. -/
structure HttpRetryOptions where
  initial_delay : Nat
  attempts : Nat
deriving DecidableEq, Repr

/-- `RETRY_OPTIONS = types.HttpRetryOptions(initial_delay=1, attempts=6)`
(src/agent.py line 25). -/
def RETRY_OPTIONS : HttpRetryOptions := ⟨1, 6⟩

/-- A `Gemini` model handle: the model identifier (absent if the
`MODEL` environment variable is unset) and the retry policy. -/
structure Gemini where
  model : Option String
  retry_options : HttpRetryOptions

/-- `model_name = os.getenv("MODEL")` (src/agent.py line 23). -/
def model_name (env : String → Option String) : Option String := env "MODEL"

/-- A model-backed `Agent` descriptor: name, model handle, tool names
and sub-agent names. -/
structure AgentCfg where
  name : String
  model : Gemini
  tools : List String
  sub_agents : List String

/-- The `admirer` agent (src/agent.py lines 56-74). -/
def admirer (env : String → Option String) : AgentCfg :=
  ⟨"admirer", ⟨model_name env, RETRY_OPTIONS⟩,
    ["wikipedia", "append_to_state"], []⟩

/-- The `critic_researcher` agent (src/agent.py lines 76-94). -/
def critic_researcher (env : String → Option String) : AgentCfg :=
  ⟨"critic_researcher", ⟨model_name env, RETRY_OPTIONS⟩,
    ["wikipedia", "append_to_state"], []⟩

/-- A `ParallelAgent` descriptor: name and sub-agent names. -/
structure ParallelAgentCfg where
  name : String
  sub_agents : List String

/-- The `investigation_team` parallel agent (src/agent.py lines
96-100). -/
def investigation_team : ParallelAgentCfg :=
  ⟨"investigation_team", ["admirer", "critic_researcher"]⟩

/-- The `judge` agent (src/agent.py lines 102-120). -/
def judge (env : String → Option String) : AgentCfg :=
  ⟨"judge", ⟨model_name env, RETRY_OPTIONS⟩,
    ["append_to_state", "exit_loop"], []⟩

/-- A `LoopAgent` descriptor: name, sub-agent names and the iteration
cap. -/
structure LoopAgentCfg where
  name : String
  sub_agents : List String
  max_iterations : Nat

/-- The `trial_loop` loop agent with `max_iterations=3` (src/agent.py
lines 122-127). -/
def trial_loop : LoopAgentCfg :=
  ⟨"trial_loop", ["investigation_team", "judge"], 3⟩

/-- The `verdict_writer` agent (src/agent.py lines 129-147). -/
def verdict_writer (env : String → Option String) : AgentCfg :=
  ⟨"verdict_writer", ⟨model_name env, RETRY_OPTIONS⟩, ["write_file"], []⟩

/-- A `SequentialAgent` descriptor: name and sub-agent names. -/
structure SequentialAgentCfg where
  name : String
  sub_agents : List String

/-- The `historical_court_system` sequential agent (src/agent.py lines
149-153). -/
def historical_court_system : SequentialAgentCfg :=
  ⟨"historical_court_system", ["trial_loop", "verdict_writer"]⟩

/-- The root `judge_greeter` agent (src/agent.py lines 155-171). -/
def root_agent (env : String → Option String) : AgentCfg :=
  ⟨"judge_greeter", ⟨model_name env, RETRY_OPTIONS⟩,
    ["append_to_state"], ["historical_court_system"]⟩

/-- C7: every model-backed agent — admirer, critic_researcher, judge,
verdict_writer and the root greeter — is configured with one and the
same retry policy, namely `RETRY_OPTIONS`: a bounded 6 attempts with a
fixed initial delay of 1; no agent receives a different retry
configuration, whatever the environment. -/
theorem all_agents_same_retry (env : String → Option String) :
    (admirer env).model.retry_options = RETRY_OPTIONS ∧
    (critic_researcher env).model.retry_options = RETRY_OPTIONS ∧
    (judge env).model.retry_options = RETRY_OPTIONS ∧
    (verdict_writer env).model.retry_options = RETRY_OPTIONS ∧
    (root_agent env).model.retry_options = RETRY_OPTIONS ∧
    RETRY_OPTIONS.attempts = 6 ∧ RETRY_OPTIONS.initial_delay = 1 :=
  ⟨rfl, rfl, rfl, rfl, rfl, rfl, rfl⟩

/-! ### The trial loop as a bounded state machine

The loop body `{investigation_team, judge}` and the iteration cap are
configured in `trial_loop`; the looping itself is performed by the
framework's `LoopAgent`, whose code is not part of this repository. -/

/-- A state of the trial loop: still iterating after `count` body
executions, or terminated (by the judge's exit signal or by the
iteration cap) after `count` body executions. -/
inductive LoopState where
  | iterating (count : Nat)
  | terminatedBySignal (count : Nat)
  | terminatedByCap (count : Nat)
deriving DecidableEq, Repr

/-- Modelled from the spec: the `LoopAgent` iteration semantics is
framework code absent from the repository; per the spec the loop
"repeats {investigation, judge} up to a fixed iteration cap (3);
terminates early on judge's exit signal", with states
{iterating, terminated-by-signal, terminated-by-cap} and no other
transitions.  `signal i` tells whether the judge calls `exit_loop`
during body execution `i`; a step runs one body unless the cap is
reached, and terminated states are absorbing. -/
def loopStep (maxIter : Nat) (signal : Nat → Bool) : LoopState → LoopState
  | LoopState.iterating i =>
      if maxIter ≤ i then LoopState.terminatedByCap i
      else if signal i then LoopState.terminatedBySignal (i + 1)
      else LoopState.iterating (i + 1)
  | s => s

/-- Modelled from the spec: iterate the loop's step function a given
number of times. -/
def loopRun (maxIter : Nat) (signal : Nat → Bool) : Nat → LoopState → LoopState
  | 0, s => s
  | n + 1, s => loopRun maxIter signal n (loopStep maxIter signal s)

/-- C6: for every behaviour of the judge's exit signal, the trial loop
run from the initial state reaches a terminal state after executing
its body at most `trial_loop.max_iterations = 3` times, and that
terminal state is terminated-by-signal or terminated-by-cap; both
terminated states are absorbing (there is no other way of leaving the
loop), and a signal in the first iteration terminates the loop by
signal after exactly one body execution. -/
theorem trial_loop_bounded_termination (signal : Nat → Bool) :
    (∃ n, n ≤ trial_loop.max_iterations ∧
      (loopRun trial_loop.max_iterations signal (trial_loop.max_iterations + 1)
          (LoopState.iterating 0) = LoopState.terminatedBySignal n ∨
        loopRun trial_loop.max_iterations signal (trial_loop.max_iterations + 1)
          (LoopState.iterating 0) = LoopState.terminatedByCap n)) ∧
    (∀ n, loopStep trial_loop.max_iterations signal
        (LoopState.terminatedBySignal n) = LoopState.terminatedBySignal n) ∧
    (∀ n, loopStep trial_loop.max_iterations signal
        (LoopState.terminatedByCap n) = LoopState.terminatedByCap n) ∧
    (signal 0 = true →
      loopRun trial_loop.max_iterations signal (trial_loop.max_iterations + 1)
        (LoopState.iterating 0) = LoopState.terminatedBySignal 1) := by
  refine ⟨?_, fun n => rfl, fun n => rfl, ?_⟩
  · cases h0 : signal 0
    · cases h1 : signal 1
      · cases h2 : signal 2
        · exact ⟨3, by decide,
            Or.inr (by simp [loopRun, loopStep, trial_loop, h0, h1, h2])⟩
        · exact ⟨3, by decide,
            Or.inl (by simp [loopRun, loopStep, trial_loop, h0, h1, h2])⟩
      · exact ⟨2, by decide,
          Or.inl (by simp [loopRun, loopStep, trial_loop, h0, h1])⟩
    · exact ⟨1, by decide,
        Or.inl (by simp [loopRun, loopStep, trial_loop, h0])⟩
  · intro h0
    simp [loopRun, loopStep, trial_loop, h0]

/-- Witness for C6 at a concrete signal (the judge never signals): the
loop terminates by the iteration cap within the bound. -/
theorem trial_loop_bounded_termination_witness :
    ∃ n, n ≤ trial_loop.max_iterations ∧
      (loopRun trial_loop.max_iterations (fun _ => false)
          (trial_loop.max_iterations + 1) (LoopState.iterating 0) =
          LoopState.terminatedBySignal n ∨
        loopRun trial_loop.max_iterations (fun _ => false)
          (trial_loop.max_iterations + 1) (LoopState.iterating 0) =
          LoopState.terminatedByCap n) :=
  (trial_loop_bounded_termination (fun _ => false)).1
